import Mathlib

/-
  Verification of the DAV MCP server (src/index.js).

  JavaScript strings are modelled as Lean `String`; the character-level
  operations the source uses (`endsWith('/')`, `startsWith('/')`,
  `slice(0, -1)`, `substring(1)`, truthiness of a string) are modelled on
  the underlying list of characters.  The external DAV client collaborator
  (the `tsdav` `DAVClient`) is modelled as a behaviour record: one outcome
  per call the handlers make, where an outcome is either a returned value
  or a raised exception carrying its `error.message` string.  Each tool
  handler is a pure function from the client behaviour and its validated
  arguments to the result envelope together with the trace of collaborator
  calls it performed, in order.
-/

namespace DavMcp

set_option maxRecDepth 8192

/-- JS `s.endsWith('/')`. -/
def jsEndsWithSlash (s : String) : Bool := s.data.getLast? == some '/'

/-- JS `s.startsWith('/')`. -/
def jsStartsWithSlash (s : String) : Bool := s.data.head? == some '/'

/-- JS `s.slice(0, -1)`: drop the last character. -/
def jsSliceDropLast (s : String) : String := ⟨s.data.dropLast⟩

/-- JS `s.substring(1)`: drop the first character. -/
def jsSubstringFrom1 (s : String) : String := ⟨s.data.tail⟩

/-- JS truthiness of a string: every string except `""` is truthy. -/
def jsTruthy (s : String) : Bool := s != ""

/-- JS `s.toLowerCase()`, character-wise; `Char.toLower` lowercases ASCII
letters exactly as JS does on the provider identifiers involved. -/
def jsToLowerCase (s : String) : String := ⟨s.data.map Char.toLower⟩

/-- Whether `needle` occurs contiguously inside `hay`. -/
def containsText (hay needle : String) : Bool := decide (needle.data <:+: hay.data)

/-- Outcome of one call into the external DAV client collaborator:
either a returned value or a raised exception carrying `error.message`. -/
inductive Outcome (α : Type) where
  | ok : α → Outcome α
  | exn : String → Outcome α
deriving DecidableEq

def Outcome.isOk : Outcome α → Bool
  | .ok _ => true
  | .exn _ => false

/-- One `{ type: "text", text: ... }` content block. -/
structure TextBlock where
  type : String
  text : String
deriving DecidableEq

/-- The uniform tool result envelope.  The source omits the `isError` key on
success; an absent key is modelled as `false`. -/
structure ResultEnvelope where
  content : List TextBlock
  isError : Bool
deriving DecidableEq

def successEnvelope (t : String) : ResultEnvelope :=
  { content := [{ type := "text", text := t }], isError := false }

def errorEnvelope (t : String) : ResultEnvelope :=
  { content := [{ type := "text", text := t }], isError := true }

/-- A well-formed envelope: exactly one content block, of type `"text"`. -/
def wellFormed (env : ResultEnvelope) : Prop :=
  ∃ t, env.content = [{ type := "text", text := t }]

/-- `JSON.stringify` applied to a plain string value (quotation; the error
messages modelled here contain no characters needing escapes). -/
def jsJsonQuote (s : String) : String := "\"" ++ s ++ "\""

/-- `JSON.stringify(error.message || error)`: a falsy (empty) message falls
back to serializing the `Error` object itself, which yields an empty JSON
object. -/
def jsStringifyErrVal (msg : String) : String :=
  if msg = "" then "\x7b\x7d" else jsJsonQuote msg

/-- Text of the envelope built in a handler's catch block:
`` `<label>${JSON.stringify(error.message || error)}` ``. -/
def catchText (label msg : String) : String := label ++ jsStringifyErrVal msg

/-- `JSON.stringify(xs, null, 2)` on an array of collaborator records; each
record's own serialization is carried verbatim in its `json` field and the
layer under verification never inspects it, so indentation is elided. -/
def stringifyRecords (render : α → String) (xs : List α) : String :=
  "[" ++ String.intercalate "," (xs.map render) ++ "]"

/-! ### CalDAV: calendars and events -/

/-- A calendar record returned by `fetchCalendars`: the `url` field is the
only field this layer inspects; the rest of the record is carried verbatim. -/
structure DAVCalendar where
  url : String
  json : String
deriving DecidableEq

/-- A calendar object (event) record, opaque to this layer. -/
structure CalendarObjectRec where
  json : String
deriving DecidableEq

/-- The options object passed to `fetchCalendarObjects`. -/
structure CalFetchOptions where
  calendar : DAVCalendar
  timeRange : Option (String × String)
deriving DecidableEq

/-- Scripted behaviour of the CalDAV client collaborator. -/
structure CalDavBehavior where
  loginR : Outcome Unit
  fetchCalendarsR : Outcome (List DAVCalendar)
  fetchCalendarObjectsR : CalFetchOptions → Outcome (List CalendarObjectRec)

/-- One call made into the CalDAV collaborator. -/
inductive CalCall where
  | login
  | fetchCalendars
  | fetchCalendarObjects (opts : CalFetchOptions)
deriving DecidableEq

/-- Whether a given CalDAV call raises under behaviour `c`. -/
def calCallFailed (c : CalDavBehavior) : CalCall → Bool
  | .login => !c.loginR.isOk
  | .fetchCalendars => !c.fetchCalendarsR.isOk
  | .fetchCalendarObjects opts => !(c.fetchCalendarObjectsR opts).isOk

def calNotInitText : String := "CalDAV client not initialized for this provider."

def cardNotInitText : String := "CardDAV client not initialized for this provider."

/-- Handler of the `get_my_calendars` tool (src/index.js lines 82-107). -/
def get_my_calendars (davClient : Option CalDavBehavior) :
    ResultEnvelope × List CalCall :=
  match davClient with
  | none => (errorEnvelope calNotInitText, [])
  | some c =>
    match c.loginR with
    | .exn e => (errorEnvelope (catchText "Error listing calendars: " e), [.login])
    | .ok _ =>
      match c.fetchCalendarsR with
      | .exn e =>
        (errorEnvelope (catchText "Error listing calendars: " e), [.login, .fetchCalendars])
      | .ok calendars =>
        (successEnvelope (stringifyRecords (fun cal => cal.json) calendars),
         [.login, .fetchCalendars])

/-- `if (timeRangeStart && timeRangeEnd) fetchOptions.timeRange = {...}`
(src/index.js lines 130-133): the range is attached only when both optional
arguments are present and truthy. -/
def timeRangeArg (timeRangeStart timeRangeEnd : Option String) :
    Option (String × String) :=
  match timeRangeStart, timeRangeEnd with
  | some s, some e => if jsTruthy s && jsTruthy e then some (s, e) else none
  | _, _ => none

/-- Handler of the `get_calendar_events` tool (src/index.js lines 109-153). -/
def get_calendar_events (davClient : Option CalDavBehavior)
    (calendarUrl : String) (timeRangeStart timeRangeEnd : Option String) :
    ResultEnvelope × List CalCall :=
  match davClient with
  | none => (errorEnvelope calNotInitText, [])
  | some c =>
    match c.loginR with
    | .exn e => (errorEnvelope (catchText "Error fetching calendar objects: " e), [.login])
    | .ok _ =>
      match c.fetchCalendarsR with
      | .exn e =>
        (errorEnvelope (catchText "Error fetching calendar objects: " e),
         [.login, .fetchCalendars])
      | .ok calendars =>
        match calendars.find? (fun cal => cal.url == calendarUrl) with
        | none =>
          (errorEnvelope ("Error: Calendar with URL " ++ calendarUrl ++ " not found."),
           [.login, .fetchCalendars])
        | some calendar =>
          let fetchOptions : CalFetchOptions :=
            { calendar := calendar, timeRange := timeRangeArg timeRangeStart timeRangeEnd }
          match c.fetchCalendarObjectsR fetchOptions with
          | .exn e =>
            (errorEnvelope (catchText "Error fetching calendar objects: " e),
             [.login, .fetchCalendars, .fetchCalendarObjects fetchOptions])
          | .ok objs =>
            (successEnvelope (stringifyRecords (fun o => o.json) objs),
             [.login, .fetchCalendars, .fetchCalendarObjects fetchOptions])

/-! ### CardDAV: address books and contacts -/

/-- An address book record returned by `fetchAddressBooks`; only `url` is
inspected. -/
structure DAVAddressBook where
  url : String
  json : String
deriving DecidableEq

/-- A vCard record, opaque to this layer. -/
structure VCardRec where
  json : String
deriving DecidableEq

/-- Scripted behaviour of the CardDAV client collaborator. -/
structure CardDavBehavior where
  loginR : Outcome Unit
  fetchAddressBooksR : Outcome (List DAVAddressBook)
  fetchVCardsR : DAVAddressBook → Outcome (List VCardRec)

/-- One call made into the CardDAV collaborator. -/
inductive CardCall where
  | login
  | fetchAddressBooks
  | fetchVCards (addressBook : DAVAddressBook)
deriving DecidableEq

/-- Whether a given CardDAV call raises under behaviour `c`. -/
def cardCallFailed (c : CardDavBehavior) : CardCall → Bool
  | .login => !c.loginR.isOk
  | .fetchAddressBooks => !c.fetchAddressBooksR.isOk
  | .fetchVCards ab => !(c.fetchVCardsR ab).isOk

/-- Handler of the `get_my_contact_lists` tool (src/index.js lines 155-180). -/
def get_my_contact_lists (cardDavClient : Option CardDavBehavior) :
    ResultEnvelope × List CardCall :=
  match cardDavClient with
  | none => (errorEnvelope cardNotInitText, [])
  | some c =>
    match c.loginR with
    | .exn e => (errorEnvelope (catchText "Error listing address books: " e), [.login])
    | .ok _ =>
      match c.fetchAddressBooksR with
      | .exn e =>
        (errorEnvelope (catchText "Error listing address books: " e),
         [.login, .fetchAddressBooks])
      | .ok addressBooks =>
        (successEnvelope (stringifyRecords (fun ab => ab.json) addressBooks),
         [.login, .fetchAddressBooks])

/-- Handler of the `get_contacts_from_list` tool (src/index.js lines 182-219). -/
def get_contacts_from_list (cardDavClient : Option CardDavBehavior)
    (addressBookUrl : String) : ResultEnvelope × List CardCall :=
  match cardDavClient with
  | none => (errorEnvelope cardNotInitText, [])
  | some c =>
    match c.loginR with
    | .exn e => (errorEnvelope (catchText "Error fetching vCards: " e), [.login])
    | .ok _ =>
      match c.fetchAddressBooksR with
      | .exn e =>
        (errorEnvelope (catchText "Error fetching vCards: " e), [.login, .fetchAddressBooks])
      | .ok addressBooks =>
        match addressBooks.find? (fun ab => ab.url == addressBookUrl) with
        | none =>
          (errorEnvelope ("Error: Address book with URL " ++ addressBookUrl ++ " not found."),
           [.login, .fetchAddressBooks])
        | some addressBook =>
          match c.fetchVCardsR addressBook with
          | .exn e =>
            (errorEnvelope (catchText "Error fetching vCards: " e),
             [.login, .fetchAddressBooks, .fetchVCards addressBook])
          | .ok vcards =>
            (successEnvelope (stringifyRecords (fun v => v.json) vcards),
             [.login, .fetchAddressBooks, .fetchVCards addressBook])

/-! ### WebDAV: files and folders -/

/-- A WebDAV object record, opaque to this layer. -/
structure DavObjectRec where
  json : String
deriving DecidableEq

/-- Scripted behaviour of the WebDAV client collaborator; `serverUrl` is the
base address the client was constructed with (`webDavClient.serverUrl`). -/
structure WebDavBehavior where
  serverUrl : String
  loginR : Outcome Unit
  fetchObjectsR : String → Outcome (List DavObjectRec)

/-- One call made into the WebDAV collaborator. -/
inductive WebCall where
  | login
  | fetchObjects (collection : String)
deriving DecidableEq

/-- Whether a given WebDAV call raises under behaviour `c`. -/
def webCallFailed (c : WebDavBehavior) : WebCall → Bool
  | .login => !c.loginR.isOk
  | .fetchObjects collection => !(c.fetchObjectsR collection).isOk

/-- The message of the TypeError raised by the host runtime when `.login` is
read off an absent (undefined) client; the exact wording is host-defined,
this constant is representative. -/
def undefinedClientLoginError : String :=
  "Cannot read properties of undefined (reading login)"

/-- The target collection address computed by `list_my_files_and_folders`
(src/index.js lines 230-236): the base server URL unchanged when the path is
absent, empty or exactly `"/"`; otherwise the base without its trailing
slash, one `/`, and the path without its leading slash. -/
def computeCollectionUrl (serverUrl : String) (path : Option String) : String :=
  match path with
  | none => serverUrl
  | some p =>
    if jsTruthy p && p != "/" then
      let base := if jsEndsWithSlash serverUrl then jsSliceDropLast serverUrl else serverUrl
      let relativePath := if jsStartsWithSlash p then jsSubstringFrom1 p else p
      base ++ "/" ++ relativePath
    else serverUrl

/-- Handler of the `list_my_files_and_folders` tool (src/index.js lines
222-256).  There is no absent-client guard in this handler: with an absent
client, reading `.login` raises a TypeError inside the `try`, which the
handler's own catch block converts to an error envelope; no collaborator
call is made. -/
def list_my_files_and_folders (webDavClient : Option WebDavBehavior)
    (path : Option String) : ResultEnvelope × List WebCall :=
  match webDavClient with
  | none =>
    (errorEnvelope (catchText "Error listing WebDAV collection: " undefinedClientLoginError),
     [])
  | some c =>
    match c.loginR with
    | .exn e => (errorEnvelope (catchText "Error listing WebDAV collection: " e), [.login])
    | .ok _ =>
      let collectionUrl := computeCollectionUrl c.serverUrl path
      match c.fetchObjectsR collectionUrl with
      | .exn e =>
        (errorEnvelope (catchText "Error listing WebDAV collection: " e),
         [.login, .fetchObjects collectionUrl])
      | .ok objs =>
        (successEnvelope (stringifyRecords (fun o => o.json) objs),
         [.login, .fetchObjects collectionUrl])

/-- Handler of the `get_file_or_folder_details` tool (src/index.js lines
258-285).  Like `list_my_files_and_folders`, it has no absent-client guard. -/
def get_file_or_folder_details (webDavClient : Option WebDavBehavior)
    (fileUrl : String) : ResultEnvelope × List WebCall :=
  match webDavClient with
  | none =>
    (errorEnvelope (catchText "Error getting WebDAV file metadata: " undefinedClientLoginError),
     [])
  | some c =>
    match c.loginR with
    | .exn e => (errorEnvelope (catchText "Error getting WebDAV file metadata: " e), [.login])
    | .ok _ =>
      match c.fetchObjectsR fileUrl with
      | .exn e =>
        (errorEnvelope (catchText "Error getting WebDAV file metadata: " e),
         [.login, .fetchObjects fileUrl])
      | .ok objs =>
        (successEnvelope (stringifyRecords (fun o => o.json) objs),
         [.login, .fetchObjects fileUrl])

/-! ### Provider resolution and startup -/

/-- The per-provider configuration: the three server base addresses; the
WebDAV one is `none` for iCloud (`webDavServerUrl = null`). -/
structure ProviderConfig where
  calDavServerUrl : String
  cardDavServerUrl : String
  webDavServerUrl : Option String
deriving DecidableEq

/-- The fastmail branch (src/index.js lines 26-50): three base addresses
templated with the account name as a URL path segment. -/
def fastmailConfig (username : String) : ProviderConfig :=
  { calDavServerUrl := "https://caldav.fastmail.com/dav/principals/user/" ++ username ++ "/"
    cardDavServerUrl := "https://carddav.fastmail.com/dav/principals/user/" ++ username ++ "/"
    webDavServerUrl := some ("https://webdav.fastmail.com/dav/principals/user/" ++ username ++ "/") }

/-- The icloud branch (src/index.js lines 52-75): fixed account-independent
base addresses, no WebDAV. -/
def icloudConfig : ProviderConfig :=
  { calDavServerUrl := "https://caldav.icloud.com"
    cardDavServerUrl := "https://contacts.icloud.com"
    webDavServerUrl := none }

/-- Provider resolution: `DAV_PROVIDER` is lowercased once
(`(process.env.DAV_PROVIDER).toLowerCase()`, line 9) and branched on
(lines 26-80); any other value is the fatal unsupported-provider error. -/
def resolveProvider (identifier username : String) : Except String ProviderConfig :=
  let p := jsToLowerCase identifier
  if p = "fastmail" then .ok (fastmailConfig username)
  else if p = "icloud" then .ok icloudConfig
  else .error ("Error: Unsupported DAV_PROVIDER \"" ++ p ++ "\". Use \"fastmail\" or \"icloud\".")

/-- The file-protocol capability flag: a WebDAV client is constructed (and
the file tools registered) exactly when a WebDAV base address is present. -/
def supportsFileProtocol (cfg : ProviderConfig) : Bool := cfg.webDavServerUrl.isSome

/-- The state reached when startup succeeds: the resolved configuration and
the tool catalog, in registration order. -/
structure ServerState where
  config : ProviderConfig
  tools : List String
deriving DecidableEq

/-- The four tools registered unconditionally, in source order. -/
def baseTools : List String :=
  ["get_my_calendars", "get_calendar_events", "get_my_contact_lists", "get_contacts_from_list"]

/-- The two tools registered only inside `if (webDavClient)` (line 221). -/
def fileTools : List String :=
  ["list_my_files_and_folders", "get_file_or_folder_details"]

/-- Startup (src/index.js lines 9-80 and the tool registrations): missing
environment variables arrive as `""` (the source applies `|| ""`); a failure
is the diagnostic printed to the error channel paired with the exit code,
and no tool is registered on failure. -/
def startup (davProviderEnv davUsername davPassword : String) :
    Except (String × Nat) ServerState :=
  if davUsername = "" ∨ davPassword = "" then
    .error ("Error: DAV_USERNAME and DAV_PASSWORD environment variables are required.", 1)
  else
    match resolveProvider davProviderEnv davUsername with
    | .error msg => .error (msg, 1)
    | .ok cfg =>
      .ok { config := cfg
            tools := baseTools ++ (if supportsFileProtocol cfg then fileTools else []) }

/-! ### The join rule as the specification words it -/

/-- Remove one trailing `/`, if any. -/
def stripTrailingSlash (s : String) : String :=
  if jsEndsWithSlash s then jsSliceDropLast s else s

/-- Remove one leading `/`, if any. -/
def stripLeadingSlash (s : String) : String :=
  if jsStartsWithSlash s then jsSubstringFrom1 s else s

/-- The specification's description of the path join for the file-listing
tool, stated from its words for comparison with `computeCollectionUrl`:
join base and path with exactly one separator, stripping a trailing
separator from the base and a leading separator from the path. -/
def specJoinOneSeparator (base path : String) : String :=
  stripTrailingSlash base ++ "/" ++ stripLeadingSlash path

/-! ### Helper lemmas -/

lemma data_append (a b : String) : (a ++ b).data = a.data ++ b.data := by
  cases a; cases b; rfl

lemma append_ne_empty (a b : String) (ha : a ≠ "") : a ++ b ≠ "" := by
  intro h
  apply ha
  have h2 : a.data ++ b.data = ([] : List Char) := by
    have h3 := congrArg String.data h
    simpa [data_append] using h3
  have hda : a.data = [] := (List.append_eq_nil.mp h2).1
  cases a
  simp_all

lemma catchText_ne_empty (label msg : String) (h : label ≠ "") :
    catchText label msg ≠ "" :=
  append_ne_empty _ _ h

lemma dropLast_append_getLast (l : List Char) (c : Char) (h : l.getLast? = some c) :
    l.dropLast ++ [c] = l := by
  induction l with
  | nil => simp at h
  | cons a t ih =>
    cases t with
    | nil => simp_all
    | cons b t2 =>
      have h2 : (b :: t2).getLast? = some c := by simpa using h
      simpa using ih h2

lemma endsWithSlash_restore (s : String) (h : jsEndsWithSlash s = true) :
    jsSliceDropLast s ++ "/" = s := by
  cases s with
  | mk l =>
    have hl : l.getLast? = some '/' := by simpa [jsEndsWithSlash] using h
    have h2 : l.dropLast ++ ['/'] = l := dropLast_append_getLast l '/' hl
    conv_rhs => rw [← h2]
    rfl

lemma endsWithSlash_append (a : String) : jsEndsWithSlash (a ++ "/") = true := by
  simp [jsEndsWithSlash, data_append]

lemma string_append_empty (s : String) : s ++ "" = s := by
  cases s with
  | mk l =>
    show (⟨l ++ []⟩ : String) = ⟨l⟩
    simp

/-- The computed collection URL agrees with the specification's join rule on
every path, whenever the base address ends in a separator (as every base
address constructed by the program does). -/
lemma compute_eq_specJoin (base p : String) (hb : jsEndsWithSlash base = true) :
    computeCollectionUrl base (some p) = specJoinOneSeparator base p := by
  by_cases h1 : p = ""
  · subst h1
    have hc : (jsTruthy "" && ("" != ("/" : String))) = false := by decide
    have hleading : stripLeadingSlash "" = "" := by decide
    simp only [computeCollectionUrl, hc, if_false, Bool.false_eq_true,
      specJoinOneSeparator, stripTrailingSlash, hb, if_true, hleading,
      string_append_empty]
    exact (endsWithSlash_restore base hb).symm
  · by_cases h2 : p = "/"
    · subst h2
      have hc : (jsTruthy "/" && ("/" != ("/" : String))) = false := by decide
      have hleading : stripLeadingSlash "/" = "" := by decide
      simp only [computeCollectionUrl, hc, if_false, Bool.false_eq_true,
        specJoinOneSeparator, stripTrailingSlash, hb, if_true, hleading,
        string_append_empty]
      exact (endsWithSlash_restore base hb).symm
    · have hc : (jsTruthy p && (p != ("/" : String))) = true := by
        simp [jsTruthy, h1, h2]
      simp only [computeCollectionUrl, hc, if_true, specJoinOneSeparator,
        stripTrailingSlash, stripLeadingSlash, hb]

lemma notFoundText_ne_empty (a u b : String) (ha : a ≠ "") : a ++ u ++ b ≠ "" :=
  append_ne_empty _ _ (append_ne_empty _ _ ha)

lemma get_my_calendars_wf (dc : Option CalDavBehavior) :
    wellFormed (get_my_calendars dc).1 := by
  unfold get_my_calendars
  repeat' split
  all_goals exact ⟨_, rfl⟩

lemma get_calendar_events_wf (dc : Option CalDavBehavior) (url : String)
    (trs tre : Option String) : wellFormed (get_calendar_events dc url trs tre).1 := by
  unfold get_calendar_events
  repeat' split
  all_goals try exact ⟨_, rfl⟩
  all_goals dsimp only
  all_goals repeat' split
  all_goals exact ⟨_, rfl⟩

lemma get_my_contact_lists_wf (cc : Option CardDavBehavior) :
    wellFormed (get_my_contact_lists cc).1 := by
  unfold get_my_contact_lists
  repeat' split
  all_goals exact ⟨_, rfl⟩

lemma get_contacts_from_list_wf (cc : Option CardDavBehavior) (url : String) :
    wellFormed (get_contacts_from_list cc url).1 := by
  unfold get_contacts_from_list
  repeat' split
  all_goals exact ⟨_, rfl⟩

lemma list_my_files_and_folders_wf (wc : Option WebDavBehavior) (path : Option String) :
    wellFormed (list_my_files_and_folders wc path).1 := by
  unfold list_my_files_and_folders
  repeat' split
  all_goals try exact ⟨_, rfl⟩
  all_goals dsimp only
  all_goals repeat' split
  all_goals exact ⟨_, rfl⟩

lemma get_file_or_folder_details_wf (wc : Option WebDavBehavior) (fileUrl : String) :
    wellFormed (get_file_or_folder_details wc fileUrl).1 := by
  unfold get_file_or_folder_details
  repeat' split
  all_goals exact ⟨_, rfl⟩

lemma get_my_calendars_fault (c : CalDavBehavior) (call : CalCall)
    (hmem : call ∈ (get_my_calendars (some c)).2) (hfail : calCallFailed c call = true) :
    ∃ t, (get_my_calendars (some c)).1 = errorEnvelope t ∧ t ≠ "" := by
  cases hl : c.loginR with
  | exn e =>
    exact ⟨catchText "Error listing calendars: " e,
      by simp [get_my_calendars, hl], catchText_ne_empty _ _ (by decide)⟩
  | ok u =>
    cases hf : c.fetchCalendarsR with
    | exn e =>
      exact ⟨catchText "Error listing calendars: " e,
        by simp [get_my_calendars, hl, hf], catchText_ne_empty _ _ (by decide)⟩
    | ok cals =>
      exfalso
      rw [show (get_my_calendars (some c)).2 = [CalCall.login, CalCall.fetchCalendars] from
        by simp [get_my_calendars, hl, hf]] at hmem
      simp only [List.mem_cons, List.not_mem_nil, or_false] at hmem
      rcases hmem with h1 | h1 <;> subst h1 <;>
        simp [calCallFailed, hl, hf, Outcome.isOk] at hfail

lemma get_calendar_events_fault (c : CalDavBehavior) (url : String)
    (trs tre : Option String) (call : CalCall)
    (hmem : call ∈ (get_calendar_events (some c) url trs tre).2)
    (hfail : calCallFailed c call = true) :
    ∃ t, (get_calendar_events (some c) url trs tre).1 = errorEnvelope t ∧ t ≠ "" := by
  cases hl : c.loginR with
  | exn e =>
    exact ⟨catchText "Error fetching calendar objects: " e,
      by simp [get_calendar_events, hl], catchText_ne_empty _ _ (by decide)⟩
  | ok u =>
    cases hf : c.fetchCalendarsR with
    | exn e =>
      exact ⟨catchText "Error fetching calendar objects: " e,
        by simp [get_calendar_events, hl, hf], catchText_ne_empty _ _ (by decide)⟩
    | ok cals =>
      cases hfind : cals.find? (fun cal => cal.url == url) with
      | none =>
        exact ⟨"Error: Calendar with URL " ++ url ++ " not found.",
          by simp [get_calendar_events, hl, hf, hfind],
          notFoundText_ne_empty _ _ _ (by decide)⟩
      | some cal =>
        cases hobj : c.fetchCalendarObjectsR { calendar := cal, timeRange := timeRangeArg trs tre } with
        | exn e =>
          exact ⟨catchText "Error fetching calendar objects: " e,
            by simp [get_calendar_events, hl, hf, hfind, hobj],
            catchText_ne_empty _ _ (by decide)⟩
        | ok objs =>
          exfalso
          rw [show (get_calendar_events (some c) url trs tre).2 =
              [CalCall.login, CalCall.fetchCalendars,
               CalCall.fetchCalendarObjects { calendar := cal, timeRange := timeRangeArg trs tre }] from
            by simp [get_calendar_events, hl, hf, hfind, hobj]] at hmem
          simp only [List.mem_cons, List.not_mem_nil, or_false] at hmem
          rcases hmem with h1 | h1 | h1 <;> subst h1 <;>
            simp [calCallFailed, hl, hf, hobj, Outcome.isOk] at hfail

lemma get_my_contact_lists_fault (c : CardDavBehavior) (call : CardCall)
    (hmem : call ∈ (get_my_contact_lists (some c)).2)
    (hfail : cardCallFailed c call = true) :
    ∃ t, (get_my_contact_lists (some c)).1 = errorEnvelope t ∧ t ≠ "" := by
  cases hl : c.loginR with
  | exn e =>
    exact ⟨catchText "Error listing address books: " e,
      by simp [get_my_contact_lists, hl], catchText_ne_empty _ _ (by decide)⟩
  | ok u =>
    cases hf : c.fetchAddressBooksR with
    | exn e =>
      exact ⟨catchText "Error listing address books: " e,
        by simp [get_my_contact_lists, hl, hf], catchText_ne_empty _ _ (by decide)⟩
    | ok abs2 =>
      exfalso
      rw [show (get_my_contact_lists (some c)).2 = [CardCall.login, CardCall.fetchAddressBooks] from
        by simp [get_my_contact_lists, hl, hf]] at hmem
      simp only [List.mem_cons, List.not_mem_nil, or_false] at hmem
      rcases hmem with h1 | h1 <;> subst h1 <;>
        simp [cardCallFailed, hl, hf, Outcome.isOk] at hfail

lemma get_contacts_from_list_fault (c : CardDavBehavior) (url : String) (call : CardCall)
    (hmem : call ∈ (get_contacts_from_list (some c) url).2)
    (hfail : cardCallFailed c call = true) :
    ∃ t, (get_contacts_from_list (some c) url).1 = errorEnvelope t ∧ t ≠ "" := by
  cases hl : c.loginR with
  | exn e =>
    exact ⟨catchText "Error fetching vCards: " e,
      by simp [get_contacts_from_list, hl], catchText_ne_empty _ _ (by decide)⟩
  | ok u =>
    cases hf : c.fetchAddressBooksR with
    | exn e =>
      exact ⟨catchText "Error fetching vCards: " e,
        by simp [get_contacts_from_list, hl, hf], catchText_ne_empty _ _ (by decide)⟩
    | ok abs2 =>
      cases hfind : abs2.find? (fun ab => ab.url == url) with
      | none =>
        exact ⟨"Error: Address book with URL " ++ url ++ " not found.",
          by simp [get_contacts_from_list, hl, hf, hfind],
          notFoundText_ne_empty _ _ _ (by decide)⟩
      | some ab =>
        cases hv : c.fetchVCardsR ab with
        | exn e =>
          exact ⟨catchText "Error fetching vCards: " e,
            by simp [get_contacts_from_list, hl, hf, hfind, hv],
            catchText_ne_empty _ _ (by decide)⟩
        | ok vcards =>
          exfalso
          rw [show (get_contacts_from_list (some c) url).2 =
              [CardCall.login, CardCall.fetchAddressBooks, CardCall.fetchVCards ab] from
            by simp [get_contacts_from_list, hl, hf, hfind, hv]] at hmem
          simp only [List.mem_cons, List.not_mem_nil, or_false] at hmem
          rcases hmem with h1 | h1 | h1 <;> subst h1 <;>
            simp [cardCallFailed, hl, hf, hv, Outcome.isOk] at hfail

lemma list_my_files_and_folders_fault (c : WebDavBehavior) (path : Option String)
    (call : WebCall) (hmem : call ∈ (list_my_files_and_folders (some c) path).2)
    (hfail : webCallFailed c call = true) :
    ∃ t, (list_my_files_and_folders (some c) path).1 = errorEnvelope t ∧ t ≠ "" := by
  cases hl : c.loginR with
  | exn e =>
    exact ⟨catchText "Error listing WebDAV collection: " e,
      by simp [list_my_files_and_folders, hl], catchText_ne_empty _ _ (by decide)⟩
  | ok u =>
    cases hf : c.fetchObjectsR (computeCollectionUrl c.serverUrl path) with
    | exn e =>
      exact ⟨catchText "Error listing WebDAV collection: " e,
        by simp [list_my_files_and_folders, hl, hf], catchText_ne_empty _ _ (by decide)⟩
    | ok objs =>
      exfalso
      rw [show (list_my_files_and_folders (some c) path).2 =
          [WebCall.login, WebCall.fetchObjects (computeCollectionUrl c.serverUrl path)] from
        by simp [list_my_files_and_folders, hl, hf]] at hmem
      simp only [List.mem_cons, List.not_mem_nil, or_false] at hmem
      rcases hmem with h1 | h1 <;> subst h1 <;>
        simp [webCallFailed, hl, hf, Outcome.isOk] at hfail

lemma get_file_or_folder_details_fault (c : WebDavBehavior) (fileUrl : String)
    (call : WebCall) (hmem : call ∈ (get_file_or_folder_details (some c) fileUrl).2)
    (hfail : webCallFailed c call = true) :
    ∃ t, (get_file_or_folder_details (some c) fileUrl).1 = errorEnvelope t ∧ t ≠ "" := by
  cases hl : c.loginR with
  | exn e =>
    exact ⟨catchText "Error getting WebDAV file metadata: " e,
      by simp [get_file_or_folder_details, hl], catchText_ne_empty _ _ (by decide)⟩
  | ok u =>
    cases hf : c.fetchObjectsR fileUrl with
    | exn e =>
      exact ⟨catchText "Error getting WebDAV file metadata: " e,
        by simp [get_file_or_folder_details, hl, hf], catchText_ne_empty _ _ (by decide)⟩
    | ok objs =>
      exfalso
      rw [show (get_file_or_folder_details (some c) fileUrl).2 =
          [WebCall.login, WebCall.fetchObjects fileUrl] from
        by simp [get_file_or_folder_details, hl, hf]] at hmem
      simp only [List.mem_cons, List.not_mem_nil, or_false] at hmem
      rcases hmem with h1 | h1 <;> subst h1 <;>
        simp [webCallFailed, hl, hf, Outcome.isOk] at hfail

/-! ### Claim theorems -/

/-- C4: for every base address of the program (all of which end in a
separator) and every supplied relative path, the list-files tool computes
the target collection address by joining base and path with exactly one
separator, stripping a trailing separator from the base and a leading one
from the path; in particular base `https://host/root/` with paths
`Documents/Work` and `/Documents/Work` both yield
`https://host/root/Documents/Work`, and with no path the base address is
used unchanged. -/
theorem C4_path_join_one_separator :
    (∀ base p, jsTruthy p = true → p ≠ "/" →
      computeCollectionUrl base (some p) = specJoinOneSeparator base p) ∧
    (∀ base path, jsEndsWithSlash base = true →
      computeCollectionUrl base (some path) = specJoinOneSeparator base path) ∧
    (∀ base, computeCollectionUrl base none = base) ∧
    (∀ username, ∃ w, (fastmailConfig username).webDavServerUrl = some w ∧
      jsEndsWithSlash w = true) ∧
    computeCollectionUrl "https://host/root/" (some "Documents/Work")
      = "https://host/root/Documents/Work" ∧
    computeCollectionUrl "https://host/root/" (some "/Documents/Work")
      = "https://host/root/Documents/Work" ∧
    computeCollectionUrl "https://host/root/" none = "https://host/root/" := by
  refine ⟨?_, fun base path hb => compute_eq_specJoin base path hb,
          fun base => rfl,
          fun username => ⟨_, rfl, endsWithSlash_append _⟩,
          by decide, by decide, rfl⟩
  intro base p hp h2
  have hc : (jsTruthy p && (p != ("/" : String))) = true := by simp [hp, h2]
  simp only [computeCollectionUrl, hc, if_true, specJoinOneSeparator,
    stripTrailingSlash, stripLeadingSlash]

/-- C4 witness: the join rule instantiated at the specification's example
base and a concrete path. -/
theorem C4_path_join_one_separator_witness :
    computeCollectionUrl "https://host/root/" (some "Docs")
      = specJoinOneSeparator "https://host/root/" "Docs" :=
  C4_path_join_one_separator.1 "https://host/root/" "Docs" (by decide) (by decide)

/-- C10: a supplied path of exactly `"/"` is treated like an absent path:
the target collection address is the base address unchanged, identical to
the no-path invocation. -/
theorem C10_slash_path_treated_as_absent (base : String) :
    computeCollectionUrl base (some "/") = base ∧
    computeCollectionUrl base (some "/") = computeCollectionUrl base none := by
  have hc : (jsTruthy "/" && ("/" != ("/" : String))) = false := by decide
  constructor <;> simp [computeCollectionUrl, hc]

/-- C1: every tool handler, for every behaviour of the external DAV client
collaborator (absent client included), returns a well-formed envelope; and
whenever a collaborator call the handler actually performed raises, the
envelope has `isError` true and a non-empty text field.  No handler
propagates an exception: each is a total function into envelopes. -/
theorem C1_handlers_never_raise_and_envelope_faults :
    ((∀ dc, wellFormed (get_my_calendars dc).1) ∧
     (∀ dc url trs tre, wellFormed (get_calendar_events dc url trs tre).1) ∧
     (∀ cc, wellFormed (get_my_contact_lists cc).1) ∧
     (∀ cc url, wellFormed (get_contacts_from_list cc url).1) ∧
     (∀ wc path, wellFormed (list_my_files_and_folders wc path).1) ∧
     (∀ wc fileUrl, wellFormed (get_file_or_folder_details wc fileUrl).1)) ∧
    ((∀ c call, call ∈ (get_my_calendars (some c)).2 → calCallFailed c call = true →
       ∃ t, (get_my_calendars (some c)).1 = errorEnvelope t ∧ t ≠ "") ∧
     (∀ c url trs tre call, call ∈ (get_calendar_events (some c) url trs tre).2 →
       calCallFailed c call = true →
       ∃ t, (get_calendar_events (some c) url trs tre).1 = errorEnvelope t ∧ t ≠ "") ∧
     (∀ c call, call ∈ (get_my_contact_lists (some c)).2 → cardCallFailed c call = true →
       ∃ t, (get_my_contact_lists (some c)).1 = errorEnvelope t ∧ t ≠ "") ∧
     (∀ c url call, call ∈ (get_contacts_from_list (some c) url).2 →
       cardCallFailed c call = true →
       ∃ t, (get_contacts_from_list (some c) url).1 = errorEnvelope t ∧ t ≠ "") ∧
     (∀ c path call, call ∈ (list_my_files_and_folders (some c) path).2 →
       webCallFailed c call = true →
       ∃ t, (list_my_files_and_folders (some c) path).1 = errorEnvelope t ∧ t ≠ "") ∧
     (∀ c fileUrl call, call ∈ (get_file_or_folder_details (some c) fileUrl).2 →
       webCallFailed c call = true →
       ∃ t, (get_file_or_folder_details (some c) fileUrl).1 = errorEnvelope t ∧ t ≠ "")) :=
  ⟨⟨get_my_calendars_wf, get_calendar_events_wf, get_my_contact_lists_wf,
    get_contacts_from_list_wf, list_my_files_and_folders_wf, get_file_or_folder_details_wf⟩,
   ⟨get_my_calendars_fault, fun c url trs tre => get_calendar_events_fault c url trs tre,
    get_my_contact_lists_fault, get_contacts_from_list_fault,
    list_my_files_and_folders_fault, get_file_or_folder_details_fault⟩⟩

/-- C1 witness: a concrete collaborator whose authenticate step raises
yields a concrete error envelope with a non-empty text. -/
theorem C1_handlers_never_raise_and_envelope_faults_witness :
    ∃ t, (get_my_calendars (some ⟨Outcome.exn "network down", Outcome.ok [],
        fun _ => Outcome.ok []⟩)).1 = errorEnvelope t ∧ t ≠ "" :=
  C1_handlers_never_raise_and_envelope_faults.2.1
    ⟨Outcome.exn "network down", Outcome.ok [], fun _ => Outcome.ok []⟩
    CalCall.login (by decide) (by decide)

lemma get_calendar_events_congr (dc : Option CalDavBehavior) (url : String)
    {a b a2 b2 : Option String} (h : timeRangeArg a b = timeRangeArg a2 b2) :
    get_calendar_events dc url a b = get_calendar_events dc url a2 b2 := by
  cases dc with
  | none => rfl
  | some c => simp only [get_calendar_events, h]

/-- Any options object handed to `fetchCalendarObjects` carries exactly the
time range computed from the two optional bounds. -/
lemma fetch_opts_in_trace (c : CalDavBehavior) (url : String) (trs tre : Option String)
    (opts : CalFetchOptions)
    (h : CalCall.fetchCalendarObjects opts ∈ (get_calendar_events (some c) url trs tre).2) :
    opts.timeRange = timeRangeArg trs tre := by
  cases hl : c.loginR with
  | exn e =>
    rw [show (get_calendar_events (some c) url trs tre).2 = [CalCall.login] from
      by simp [get_calendar_events, hl]] at h
    simp at h
  | ok u =>
    cases hf : c.fetchCalendarsR with
    | exn e =>
      rw [show (get_calendar_events (some c) url trs tre).2 =
          [CalCall.login, CalCall.fetchCalendars] from
        by simp [get_calendar_events, hl, hf]] at h
      simp at h
    | ok cals =>
      cases hfind : cals.find? (fun cal => cal.url == url) with
      | none =>
        rw [show (get_calendar_events (some c) url trs tre).2 =
            [CalCall.login, CalCall.fetchCalendars] from
          by simp [get_calendar_events, hl, hf, hfind]] at h
        simp at h
      | some cal =>
        cases hobj : c.fetchCalendarObjectsR { calendar := cal, timeRange := timeRangeArg trs tre } with
        | exn e =>
          rw [show (get_calendar_events (some c) url trs tre).2 =
              [CalCall.login, CalCall.fetchCalendars,
               CalCall.fetchCalendarObjects { calendar := cal, timeRange := timeRangeArg trs tre }] from
            by simp [get_calendar_events, hl, hf, hfind, hobj]] at h
          simp only [List.mem_cons, List.not_mem_nil, or_false] at h
          rcases h with h | h | h
          · cases h
          · cases h
          · cases h; rfl
        | ok objs =>
          rw [show (get_calendar_events (some c) url trs tre).2 =
              [CalCall.login, CalCall.fetchCalendars,
               CalCall.fetchCalendarObjects { calendar := cal, timeRange := timeRangeArg trs tre }] from
            by simp [get_calendar_events, hl, hf, hfind, hobj]] at h
          simp only [List.mem_cons, List.not_mem_nil, or_false] at h
          rcases h with h | h | h
          · cases h
          · cases h
          · cases h; rfl

/-- When both bounds are supplied (and, as `zod`-validated datetimes, are
non-empty) and the calendar is found, the fetch is called with exactly that
range attached. -/
lemma fetch_called_with_range (c : CalDavBehavior) (url s e : String)
    (cals : List DAVCalendar) (cal : DAVCalendar)
    (hl : c.loginR = Outcome.ok ()) (hf : c.fetchCalendarsR = Outcome.ok cals)
    (hfind : cals.find? (fun x => x.url == url) = some cal)
    (hs : s ≠ "") (he : e ≠ "") :
    CalCall.fetchCalendarObjects { calendar := cal, timeRange := some (s, e) }
      ∈ (get_calendar_events (some c) url (some s) (some e)).2 := by
  have htr : timeRangeArg (some s) (some e) = some (s, e) := by
    simp [timeRangeArg, jsTruthy, hs, he]
  cases hobj : c.fetchCalendarObjectsR { calendar := cal, timeRange := some (s, e) } with
  | exn e2 =>
    rw [show (get_calendar_events (some c) url (some s) (some e)).2 =
        [CalCall.login, CalCall.fetchCalendars,
         CalCall.fetchCalendarObjects { calendar := cal, timeRange := some (s, e) }] from
      by simp [get_calendar_events, hl, hf, hfind, htr, hobj]]
    simp
  | ok objs =>
    rw [show (get_calendar_events (some c) url (some s) (some e)).2 =
        [CalCall.login, CalCall.fetchCalendars,
         CalCall.fetchCalendarObjects { calendar := cal, timeRange := some (s, e) }] from
      by simp [get_calendar_events, hl, hf, hfind, htr, hobj]]
    simp

/-- C2: the time-range constraint is passed to the event fetch iff both
bounds are supplied (as validated datetimes they are non-empty); supplying
exactly one bound behaves identically to supplying neither — the whole
handler result, envelope and collaborator-call trace alike, coincides with
the unconstrained invocation — and every fetch call carries exactly the
range computed from the two bounds, so no partial-range call can reach the
collaborator. -/
theorem C2_time_range_requires_both_bounds :
    (∀ s e, s ≠ "" → e ≠ "" → timeRangeArg (some s) (some e) = some (s, e)) ∧
    (∀ trs tre, (timeRangeArg trs tre).isSome = true →
       trs.isSome = true ∧ tre.isSome = true) ∧
    (∀ dc url s, get_calendar_events dc url (some s) none
       = get_calendar_events dc url none none) ∧
    (∀ dc url e, get_calendar_events dc url none (some e)
       = get_calendar_events dc url none none) ∧
    (∀ c url trs tre opts,
       CalCall.fetchCalendarObjects opts ∈ (get_calendar_events (some c) url trs tre).2 →
       opts.timeRange = timeRangeArg trs tre) ∧
    (∀ s, timeRangeArg (some s) none = none) ∧
    (∀ e, timeRangeArg none (some e) = none) := by
  refine ⟨?_, ?_, ?_, ?_, ?_, fun s => rfl, fun e => rfl⟩
  · intro s e hs he
    simp [timeRangeArg, jsTruthy, hs, he]
  · intro trs tre h
    constructor <;> (rcases trs with _ | s <;> rcases tre with _ | e <;> simp_all [timeRangeArg])
  · intro dc url s
    exact get_calendar_events_congr dc url rfl
  · intro dc url e
    exact get_calendar_events_congr dc url rfl
  · intro c url trs tre opts h
    exact fetch_opts_in_trace c url trs tre opts h

/-- C2 witness: with only a start bound and a concrete collaborator, the
invocation coincides with the unconstrained one, and with both bounds the
range is attached. -/
theorem C2_time_range_requires_both_bounds_witness :
    get_calendar_events (some ⟨Outcome.ok (), Outcome.ok [], fun _ => Outcome.ok []⟩)
        "https://h/cal/" (some "2025-06-01T00:00:00Z") none
      = get_calendar_events (some ⟨Outcome.ok (), Outcome.ok [], fun _ => Outcome.ok []⟩)
        "https://h/cal/" none none ∧
    timeRangeArg (some "2025-06-01T00:00:00Z") (some "2025-06-02T00:00:00Z")
      = some ("2025-06-01T00:00:00Z", "2025-06-02T00:00:00Z") :=
  ⟨C2_time_range_requires_both_bounds.2.2.1 _ "https://h/cal/" "2025-06-01T00:00:00Z",
   C2_time_range_requires_both_bounds.1 "2025-06-01T00:00:00Z" "2025-06-02T00:00:00Z"
     (by decide) (by decide)⟩

/-- C9: when both bounds are supplied they are forwarded to the event fetch
as-is, with no validation that the start precedes the end: for every pair of
non-empty bounds, including a start equal to or after the end, the fetch
options carry exactly that pair. -/
theorem C9_time_range_forwarded_unvalidated (c : CalDavBehavior) (url s e : String)
    (cals : List DAVCalendar) (cal : DAVCalendar)
    (hl : c.loginR = Outcome.ok ()) (hf : c.fetchCalendarsR = Outcome.ok cals)
    (hfind : cals.find? (fun x => x.url == url) = some cal)
    (hs : s ≠ "") (he : e ≠ "") :
    timeRangeArg (some s) (some e) = some (s, e) ∧
    CalCall.fetchCalendarObjects { calendar := cal, timeRange := some (s, e) }
      ∈ (get_calendar_events (some c) url (some s) (some e)).2 :=
  ⟨by simp [timeRangeArg, jsTruthy, hs, he],
   fetch_called_with_range c url s e cals cal hl hf hfind hs he⟩

/-- C9 witness: a range whose start is after its end is forwarded to the
collaborator unchanged. -/
theorem C9_time_range_forwarded_unvalidated_witness :
    CalCall.fetchCalendarObjects
        { calendar := ⟨"https://h/cal/", "x"⟩,
          timeRange := some ("2025-06-02T00:00:00Z", "2025-06-01T00:00:00Z") }
      ∈ (get_calendar_events
          (some ⟨Outcome.ok (), Outcome.ok [⟨"https://h/cal/", "x"⟩], fun _ => Outcome.ok []⟩)
          "https://h/cal/" (some "2025-06-02T00:00:00Z") (some "2025-06-01T00:00:00Z")).2 :=
  (C9_time_range_forwarded_unvalidated
    ⟨Outcome.ok (), Outcome.ok [⟨"https://h/cal/", "x"⟩], fun _ => Outcome.ok []⟩
    "https://h/cal/" "2025-06-02T00:00:00Z" "2025-06-01T00:00:00Z"
    [⟨"https://h/cal/", "x"⟩] ⟨"https://h/cal/", "x"⟩
    rfl rfl (by decide) (by decide) (by decide)).2

lemma get_calendar_events_not_found (c : CalDavBehavior) (url : String)
    (trs tre : Option String) (cals : List DAVCalendar)
    (hl : c.loginR = Outcome.ok ()) (hf : c.fetchCalendarsR = Outcome.ok cals)
    (hnone : ∀ cal ∈ cals, cal.url ≠ url) :
    get_calendar_events (some c) url trs tre =
      (errorEnvelope ("Error: Calendar with URL " ++ url ++ " not found."),
       [CalCall.login, CalCall.fetchCalendars]) := by
  have hfind : cals.find? (fun cal => cal.url == url) = none := by
    rw [List.find?_eq_none]
    intro cal hmem
    simpa using hnone cal hmem
  simp [get_calendar_events, hl, hf, hfind]

lemma get_contacts_from_list_not_found (c : CardDavBehavior) (url : String)
    (abps : List DAVAddressBook)
    (hl : c.loginR = Outcome.ok ()) (hf : c.fetchAddressBooksR = Outcome.ok abps)
    (hnone : ∀ ab ∈ abps, ab.url ≠ url) :
    get_contacts_from_list (some c) url =
      (errorEnvelope ("Error: Address book with URL " ++ url ++ " not found."),
       [CardCall.login, CardCall.fetchAddressBooks]) := by
  have hfind : abps.find? (fun ab => ab.url == url) = none := by
    rw [List.find?_eq_none]
    intro ab hmem
    simpa using hnone ab hmem
  simp [get_contacts_from_list, hl, hf, hfind]

lemma get_calendar_events_fetch_iff (c : CalDavBehavior) (url : String)
    (trs tre : Option String) (cals : List DAVCalendar)
    (hl : c.loginR = Outcome.ok ()) (hf : c.fetchCalendarsR = Outcome.ok cals) :
    (∃ opts, CalCall.fetchCalendarObjects opts ∈ (get_calendar_events (some c) url trs tre).2)
      ↔ ∃ cal ∈ cals, cal.url = url := by
  constructor
  · rintro ⟨opts, hmem⟩
    cases hfind : cals.find? (fun cal => cal.url == url) with
    | none =>
      rw [show (get_calendar_events (some c) url trs tre).2 =
          [CalCall.login, CalCall.fetchCalendars] from
        by simp [get_calendar_events, hl, hf, hfind]] at hmem
      simp at hmem
    | some cal =>
      refine ⟨cal, List.mem_of_find?_eq_some hfind, ?_⟩
      have hp := List.find?_some hfind
      simpa using hp
  · rintro ⟨cal, hmem, hurl⟩
    have hsome : (cals.find? (fun cal => cal.url == url)).isSome := by
      rw [List.find?_isSome]
      exact ⟨cal, hmem, by simp [hurl]⟩
    obtain ⟨cal2, hfind⟩ := Option.isSome_iff_exists.mp hsome
    refine ⟨{ calendar := cal2, timeRange := timeRangeArg trs tre }, ?_⟩
    cases hobj : c.fetchCalendarObjectsR { calendar := cal2, timeRange := timeRangeArg trs tre } with
    | exn e =>
      rw [show (get_calendar_events (some c) url trs tre).2 =
          [CalCall.login, CalCall.fetchCalendars,
           CalCall.fetchCalendarObjects { calendar := cal2, timeRange := timeRangeArg trs tre }] from
        by simp [get_calendar_events, hl, hf, hfind, hobj]]
      simp
    | ok objs =>
      rw [show (get_calendar_events (some c) url trs tre).2 =
          [CalCall.login, CalCall.fetchCalendars,
           CalCall.fetchCalendarObjects { calendar := cal2, timeRange := timeRangeArg trs tre }] from
        by simp [get_calendar_events, hl, hf, hfind, hobj]]
      simp

lemma get_contacts_from_list_fetch_iff (c : CardDavBehavior) (url : String)
    (abps : List DAVAddressBook)
    (hl : c.loginR = Outcome.ok ()) (hf : c.fetchAddressBooksR = Outcome.ok abps) :
    (∃ ab2, CardCall.fetchVCards ab2 ∈ (get_contacts_from_list (some c) url).2)
      ↔ ∃ ab ∈ abps, ab.url = url := by
  constructor
  · rintro ⟨ab2, hmem⟩
    cases hfind : abps.find? (fun ab => ab.url == url) with
    | none =>
      rw [show (get_contacts_from_list (some c) url).2 =
          [CardCall.login, CardCall.fetchAddressBooks] from
        by simp [get_contacts_from_list, hl, hf, hfind]] at hmem
      simp at hmem
    | some ab =>
      refine ⟨ab, List.mem_of_find?_eq_some hfind, ?_⟩
      have hp := List.find?_some hfind
      simpa using hp
  · rintro ⟨ab, hmem, hurl⟩
    have hsome : (abps.find? (fun ab => ab.url == url)).isSome := by
      rw [List.find?_isSome]
      exact ⟨ab, hmem, by simp [hurl]⟩
    obtain ⟨ab2, hfind⟩ := Option.isSome_iff_exists.mp hsome
    refine ⟨ab2, ?_⟩
    cases hv : c.fetchVCardsR ab2 with
    | exn e =>
      rw [show (get_contacts_from_list (some c) url).2 =
          [CardCall.login, CardCall.fetchAddressBooks, CardCall.fetchVCards ab2] from
        by simp [get_contacts_from_list, hl, hf, hfind, hv]]
      simp
    | ok vcards =>
      rw [show (get_contacts_from_list (some c) url).2 =
          [CardCall.login, CardCall.fetchAddressBooks, CardCall.fetchVCards ab2] from
        by simp [get_contacts_from_list, hl, hf, hfind, hv]]
      simp

/-- C3: a supplied identifier URL is matched against the freshly fetched
container list by exact string equality: the event (resp. vCard) fetch
happens iff some container URL is literally equal to the supplied one; when
none is, the handler returns an error envelope whose text mentions the
supplied URL and performs no event (resp. vCard) fetch — its collaborator
trace is exactly the login and the container listing. -/
theorem C3_exact_url_match_or_not_found :
    (∀ c url trs tre cals, c.loginR = Outcome.ok () → c.fetchCalendarsR = Outcome.ok cals →
      (∀ cal ∈ cals, cal.url ≠ url) →
      get_calendar_events (some c) url trs tre =
        (errorEnvelope ("Error: Calendar with URL " ++ url ++ " not found."),
         [CalCall.login, CalCall.fetchCalendars]) ∧
      ∃ a b, "Error: Calendar with URL " ++ url ++ " not found." = a ++ url ++ b) ∧
    (∀ c url abps, c.loginR = Outcome.ok () → c.fetchAddressBooksR = Outcome.ok abps →
      (∀ ab ∈ abps, ab.url ≠ url) →
      get_contacts_from_list (some c) url =
        (errorEnvelope ("Error: Address book with URL " ++ url ++ " not found."),
         [CardCall.login, CardCall.fetchAddressBooks]) ∧
      ∃ a b, "Error: Address book with URL " ++ url ++ " not found." = a ++ url ++ b) ∧
    (∀ c url trs tre cals, c.loginR = Outcome.ok () → c.fetchCalendarsR = Outcome.ok cals →
      ((∃ opts, CalCall.fetchCalendarObjects opts ∈ (get_calendar_events (some c) url trs tre).2)
        ↔ ∃ cal ∈ cals, cal.url = url)) ∧
    (∀ c url abps, c.loginR = Outcome.ok () → c.fetchAddressBooksR = Outcome.ok abps →
      ((∃ ab2, CardCall.fetchVCards ab2 ∈ (get_contacts_from_list (some c) url).2)
        ↔ ∃ ab ∈ abps, ab.url = url)) := by
  refine ⟨?_, ?_, ?_, ?_⟩
  · intro c url trs tre cals hl hf hnone
    exact ⟨get_calendar_events_not_found c url trs tre cals hl hf hnone,
      "Error: Calendar with URL ", " not found.", rfl⟩
  · intro c url abps hl hf hnone
    exact ⟨get_contacts_from_list_not_found c url abps hl hf hnone,
      "Error: Address book with URL ", " not found.", rfl⟩
  · intro c url trs tre cals hl hf
    exact get_calendar_events_fetch_iff c url trs tre cals hl hf
  · intro c url abps hl hf
    exact get_contacts_from_list_fetch_iff c url abps hl hf

/-- C3 witness: a URL differing from the advertised container URL only by
its trailing slash is not found — no normalization happens — and the trace
contains no event fetch. -/
theorem C3_exact_url_match_or_not_found_witness :
    get_calendar_events
        (some ⟨Outcome.ok (), Outcome.ok [⟨"https://h/cal/", "x"⟩], fun _ => Outcome.ok []⟩)
        "https://h/cal" none none =
      (errorEnvelope ("Error: Calendar with URL " ++ "https://h/cal" ++ " not found."),
       [CalCall.login, CalCall.fetchCalendars]) :=
  (C3_exact_url_match_or_not_found.1
    ⟨Outcome.ok (), Outcome.ok [⟨"https://h/cal/", "x"⟩], fun _ => Outcome.ok []⟩
    "https://h/cal" none none [⟨"https://h/cal/", "x"⟩]
    rfl rfl (by decide)).1

/-- C6: provider resolution is a pure function of the lowercased identifier
(hence deterministic and case-insensitive, yielding identical
configurations), and the identifier is matched against the closed set
`{"fastmail", "icloud"}`: resolution succeeds only for members of that set,
and on each member yields the corresponding fixed configuration. -/
theorem C6_provider_resolution_case_insensitive :
    (∀ s t u, jsToLowerCase s = jsToLowerCase t →
       resolveProvider s u = resolveProvider t u) ∧
    (∀ s u cfg, resolveProvider s u = Except.ok cfg →
       jsToLowerCase s = "fastmail" ∨ jsToLowerCase s = "icloud") ∧
    (∀ u, resolveProvider "fastmail" u = Except.ok (fastmailConfig u)) ∧
    (∀ u, resolveProvider "icloud" u = Except.ok icloudConfig) := by
  refine ⟨?_, ?_, ?_, ?_⟩
  · intro s t u h
    simp only [resolveProvider, h]
  · intro s u cfg h
    by_cases h1 : jsToLowerCase s = "fastmail"
    · exact Or.inl h1
    · by_cases h2 : jsToLowerCase s = "icloud"
      · exact Or.inr h2
      · exfalso
        simp [resolveProvider, h1, h2] at h
  · intro u
    have h : jsToLowerCase "fastmail" = "fastmail" := by decide
    simp [resolveProvider, h]
  · intro u
    have h : jsToLowerCase "icloud" = "icloud" := by decide
    simp [resolveProvider, h]

/-- C6 witness: `ICLOUD` and `icloud` resolve to the very same
configuration. -/
theorem C6_provider_resolution_case_insensitive_witness :
    resolveProvider "ICLOUD" "acct" = resolveProvider "icloud" "acct" :=
  C6_provider_resolution_case_insensitive.1 "ICLOUD" "icloud" "acct" (by decide)

/-- C5: with non-empty credentials, startup under `icloud` (whose
file-protocol flag is false) registers a catalog from which both file tools
are absent entirely, while startup under `fastmail` (flag true) registers
both; the catalog is append-only, so absence from the final list means the
tools were never registered. -/
theorem C5_file_tools_conditional_registration (u p : String)
    (hu : u ≠ "") (hp : p ≠ "") :
    supportsFileProtocol icloudConfig = false ∧
    supportsFileProtocol (fastmailConfig u) = true ∧
    startup "icloud" u p = Except.ok ⟨icloudConfig, baseTools⟩ ∧
    "list_my_files_and_folders" ∉ baseTools ∧
    "get_file_or_folder_details" ∉ baseTools ∧
    startup "fastmail" u p = Except.ok ⟨fastmailConfig u, baseTools ++ fileTools⟩ ∧
    "list_my_files_and_folders" ∈ baseTools ++ fileTools ∧
    "get_file_or_folder_details" ∈ baseTools ++ fileTools := by
  have hcred : ¬(u = "" ∨ p = "") := by simp [hu, hp]
  have hlowi : jsToLowerCase "icloud" = "icloud" := by decide
  have hlowf : jsToLowerCase "fastmail" = "fastmail" := by decide
  have hresi : resolveProvider "icloud" u = Except.ok icloudConfig := by
    simp [resolveProvider, hlowi]
  have hresf : resolveProvider "fastmail" u = Except.ok (fastmailConfig u) := by
    simp [resolveProvider, hlowf]
  refine ⟨rfl, rfl, ?_, by decide, by decide, ?_, by decide, by decide⟩
  · simp [startup, hcred, hresi, supportsFileProtocol, icloudConfig]
  · simp [startup, hcred, hresf, supportsFileProtocol, fastmailConfig]

/-- C5 witness: the registration outcomes at concrete credentials. -/
theorem C5_file_tools_conditional_registration_witness :
    startup "icloud" "alice" "pw" = Except.ok ⟨icloudConfig, baseTools⟩ ∧
    startup "fastmail" "alice" "pw" =
      Except.ok ⟨fastmailConfig "alice", baseTools ++ fileTools⟩ :=
  ⟨(C5_file_tools_conditional_registration "alice" "pw" (by decide) (by decide)).2.2.1,
   (C5_file_tools_conditional_registration "alice" "pw" (by decide) (by decide)).2.2.2.2.2.1⟩

/-- C8: whenever the account name or the secret is empty, or the provider
selector is outside the supported set, startup yields the fatal error — the
diagnostic written to the error channel, non-empty, with exit code 1 — and
no server state (hence no registered tool, and no handler can ever run) is
produced. -/
theorem C8_startup_fails_fast (prov u p : String)
    (h : u = "" ∨ p = "" ∨
      (jsToLowerCase prov ≠ "fastmail" ∧ jsToLowerCase prov ≠ "icloud")) :
    ∃ msg, startup prov u p = Except.error (msg, 1) ∧ msg ≠ "" ∧
      ∀ st : ServerState, startup prov u p ≠ Except.ok st := by
  have key : ∃ msg, startup prov u p = Except.error (msg, 1) ∧ msg ≠ "" := by
    by_cases hcred : u = "" ∨ p = ""
    · exact ⟨"Error: DAV_USERNAME and DAV_PASSWORD environment variables are required.",
        by simp [startup, hcred], by decide⟩
    · rcases h with h | h | ⟨h1, h2⟩
      · exact absurd (Or.inl h) hcred
      · exact absurd (Or.inr h) hcred
      · refine ⟨"Error: Unsupported DAV_PROVIDER \"" ++ jsToLowerCase prov ++
            "\". Use \"fastmail\" or \"icloud\".", ?_,
          notFoundText_ne_empty _ _ _ (by decide)⟩
        have hres : resolveProvider prov u = Except.error
            ("Error: Unsupported DAV_PROVIDER \"" ++ jsToLowerCase prov ++
             "\". Use \"fastmail\" or \"icloud\".") := by
          simp [resolveProvider, h1, h2]
        simp [startup, hcred, hres]
  obtain ⟨msg, heq, hne⟩ := key
  refine ⟨msg, heq, hne, fun st hst => ?_⟩
  rw [heq] at hst
  simp at hst

/-- C8 witness: an unsupported provider selector fails startup at concrete
credentials. -/
theorem C8_startup_fails_fast_witness :
    ∃ msg, startup "yahoo" "alice" "pw" = Except.error (msg, 1) ∧ msg ≠ "" ∧
      ∀ st : ServerState, startup "yahoo" "alice" "pw" ≠ Except.ok st :=
  C8_startup_fails_fast "yahoo" "alice" "pw"
    (Or.inr (Or.inr ⟨by decide, by decide⟩))

/-- C7 counterexample: the file-listing handler has no absent-client guard;
with an absent client it returns the envelope produced by its catch block
around the host TypeError, whose text does not state that the client is not
initialized. -/
theorem C7_counterexample_file_handler_lacks_guard :
    (list_my_files_and_folders none (some "Documents/Work")).1 =
      errorEnvelope (catchText "Error listing WebDAV collection: " undefinedClientLoginError) ∧
    containsText (catchText "Error listing WebDAV collection: " undefinedClientLoginError)
      "not initialized" = false :=
  ⟨rfl, by decide⟩

/-- C7 (amended): the four calendar/contact tool handlers, when their
required client handle is absent, return immediately — before any
authenticate or fetch call — with an error envelope stating that the client
is not initialized for this provider; the two WebDAV file tool handlers
have no such guard (they are only ever registered when the handle is
present): with an absent handle they also make no collaborator call, but
return the catch-block envelope for the host TypeError, whose text does not
state that the client is not initialized. -/
theorem C7_absent_client_guard_only_in_dav_handlers (url fileUrl : String)
    (trs tre pth : Option String) :
    get_my_calendars none = (errorEnvelope calNotInitText, []) ∧
    get_calendar_events none url trs tre = (errorEnvelope calNotInitText, []) ∧
    get_my_contact_lists none = (errorEnvelope cardNotInitText, []) ∧
    get_contacts_from_list none url = (errorEnvelope cardNotInitText, []) ∧
    (list_my_files_and_folders none pth =
      (errorEnvelope (catchText "Error listing WebDAV collection: " undefinedClientLoginError),
       []) ∧
     containsText (catchText "Error listing WebDAV collection: " undefinedClientLoginError)
       "not initialized" = false) ∧
    (get_file_or_folder_details none fileUrl =
      (errorEnvelope (catchText "Error getting WebDAV file metadata: " undefinedClientLoginError),
       []) ∧
     containsText (catchText "Error getting WebDAV file metadata: " undefinedClientLoginError)
       "not initialized" = false) :=
  ⟨rfl, rfl, rfl, rfl, ⟨rfl, by decide⟩, ⟨rfl, by decide⟩⟩

/-- C7 witness: the guarded calendar-events handler at concrete arguments. -/
theorem C7_absent_client_guard_only_in_dav_handlers_witness :
    get_calendar_events none "https://h/cal/" none none = (errorEnvelope calNotInitText, []) :=
  (C7_absent_client_guard_only_in_dav_handlers "https://h/cal/" "https://h/f" none none none).2.1

/-- C10 witness: the root-slash path at the concrete example base. -/
theorem C10_slash_path_treated_as_absent_witness :
    computeCollectionUrl "https://host/root/" (some "/") = "https://host/root/" :=
  (C10_slash_path_treated_as_absent "https://host/root/").1

end DavMcp
